import Mathlib

/-!
Shallow embedding of `scripts/whisper_transcribe.py`.

The script is a CLI wrapper around an external speech-to-text engine:
`transcribe_audio` checks file existence, loads a model, calls the engine's
`transcribe` with an options dict, and reshapes the result into a JSON
document; `main` parses `sys.argv`, prints one JSON document and exits 0/1.

Modelling decisions:
* JSON documents are an inductive `Json` type; Python dicts keep insertion
  order, modelled as ordered association lists.
* `json.dumps(obj)` (compact, default separators) is `dumps`;
  `json.dumps(obj, indent=2, ensure_ascii=False)` is `dumpsIndent 0`.
  String escaping is modelled for the escape characters that can occur here;
  the `ensure_ascii` distinction (escaping of non-ASCII code points) is not
  modelled, as no claim depends on it.
* Python floats (segment timestamps) are modelled as `Rat`; no claim depends
  on floating-point rounding, only on ordering and pass-through.
* The filesystem is a predicate `fs : String → Bool` (`os.path.exists`).
* The engine (`whisper`) is an opaque collaborator: a structure of two
  functions, `load` and `transcribe`, each returning `Except String _`,
  where `Except.error e` models a raised exception with message `str(e)`.
* `str.strip()` is `pyStrip` (drop leading and trailing whitespace).
-/

/-- A JSON value, as produced by the script.  Objects are ordered field
lists, mirroring Python dict insertion order. -/
inductive Json where
  | str (s : String)
  | bool (b : Bool)
  | num (q : Rat)
  | arr (elems : List Json)
  | obj (fields : List (String × Json))

/-- JSON string escaping for one character (the characters relevant to this
program; non-ASCII pass through, as with `ensure_ascii=False`). -/
def quoteChar (c : Char) : String :=
  if c = '"' then "\\\""
  else if c = '\\' then "\\\\"
  else if c = '\n' then "\\n"
  else if c = '\t' then "\\t"
  else if c = '\r' then "\\r"
  else String.singleton c

/-- A JSON string literal: quotes around the escaped characters. -/
def quoteStr (s : String) : String :=
  "\"" ++ String.join (s.toList.map quoteChar) ++ "\""

/-- Rendering of a numeric JSON value.  (Python renders floats; the exact
digit string is irrelevant to every claim, only that numbers render to some
string.) -/
def numRepr (q : Rat) : String :=
  if q.den = 1 then toString q.num else toString q.num ++ "/" ++ toString q.den

mutual
/-- Compact `json.dumps(j)` with default separators: single line,
`", "` between items and `": "` after keys. -/
def dumps : Json → String
  | .str s => quoteStr s
  | .bool b => cond b "true" "false"
  | .num q => numRepr q
  | .arr xs => "[" ++ dumpsArr xs ++ "]"
  | .obj fs => "\x7b" ++ dumpsObj fs ++ "\x7d"

/-- Compact rendering of array elements, comma-space separated. -/
def dumpsArr : List Json → String
  | [] => ""
  | [x] => dumps x
  | x :: y :: rest => dumps x ++ ", " ++ dumpsArr (y :: rest)

/-- Compact rendering of object fields, comma-space separated. -/
def dumpsObj : List (String × Json) → String
  | [] => ""
  | [(k, v)] => quoteStr k ++ ": " ++ dumps v
  | (k, v) :: y :: rest => quoteStr k ++ ": " ++ dumps v ++ ", " ++ dumpsObj (y :: rest)
end

/-- A string of `n` spaces. -/
def spaces : Nat → String
  | 0 => ""
  | n + 1 => " " ++ spaces n

mutual
/-- Indented `json.dumps(j, indent=2)`: each nesting level indented two further
spaces, `ind` the current indentation of the surrounding value. -/
def dumpsIndent (ind : Nat) : Json → String
  | .str s => quoteStr s
  | .bool b => cond b "true" "false"
  | .num q => numRepr q
  | .arr [] => "[]"
  | .arr (x :: xs) => "[\n" ++ dumpsIndentArr (ind + 2) (x :: xs) ++ "\n" ++ spaces ind ++ "]"
  | .obj [] => "\x7b\x7d"
  | .obj (f :: fs) => "\x7b\n" ++ dumpsIndentObj (ind + 2) (f :: fs) ++ "\n" ++ spaces ind ++ "\x7d"

/-- Indented rendering of array elements, one per line. -/
def dumpsIndentArr (cur : Nat) : List Json → String
  | [] => ""
  | [x] => spaces cur ++ dumpsIndent cur x
  | x :: y :: rest => spaces cur ++ dumpsIndent cur x ++ ",\n" ++ dumpsIndentArr cur (y :: rest)

/-- Indented rendering of object fields, one per line. -/
def dumpsIndentObj (cur : Nat) : List (String × Json) → String
  | [] => ""
  | [(k, v)] => spaces cur ++ quoteStr k ++ ": " ++ dumpsIndent cur v
  | (k, v) :: y :: rest =>
      spaces cur ++ quoteStr k ++ ": " ++ dumpsIndent cur v ++ ",\n" ++ dumpsIndentObj cur (y :: rest)
end

/-- First binding of `key` in an ordered field list (Python dict lookup;
the script never writes a key twice, so first binding is the binding). -/
def lookupField : List (String × Json) → String → Option Json
  | [], _ => none
  | (k, v) :: rest, key => if k = key then some v else lookupField rest key

/-- Lookup `j[key]` / `key in j` on a JSON object; `none` when the key is absent
or `j` is not an object. -/
def Json.lookup (j : Json) (key : String) : Option Json :=
  match j with
  | .obj fields => lookupField fields key
  | _ => none

/-- Python `str.strip()`: remove leading and trailing whitespace. -/
def pyStrip (s : String) : String :=
  String.mk (((s.toList.dropWhile Char.isWhitespace).reverse.dropWhile Char.isWhitespace).reverse)

/-- One segment as returned by the engine: a dict read with
`segment.get("start", 0)`, `segment.get("end", 0)`, `segment.get("text", "")`,
so every field is optional. -/
structure EngineSegment where
  start? : Option Rat
  end? : Option Rat
  text? : Option String

/-- The engine's transcription result: `result["text"]` is read
unconditionally, `result.get("language", "unknown")` and
`if "segments" in result` make the other two optional. -/
structure EngineResult where
  text : String
  language? : Option String
  segments? : Option (List EngineSegment)

/-- The external speech-recognition engine (`whisper`), an opaque
collaborator.  `load m` models `whisper.load_model(m)`;
`transcribe m path opts` models `model_instance.transcribe(path, **opts)` on
the instance loaded for `m`.  `Except.error e` models an exception whose
`str(e)` is `e`; the script's `except Exception` catches every such error,
so a single message type models the (undistinguished) exception classes. -/
structure Engine where
  load : String → Except String Unit
  transcribe : String → String → List (String × String) → Except String EngineResult

/-- The options dict built by
`options = {}` / `if language: options["language"] = language`.
Python truthiness: `None` and the empty string are falsy, every other
string is truthy. -/
def buildOptions : Option String → List (String × String)
  | none => []
  | some l => if l = "" then [] else [("language", l)]

/-- The per-segment dict appended by the extraction loop:
`{"start": segment.get("start", 0), "end": segment.get("end", 0),
"text": segment.get("text", "").strip()}`. -/
def segmentToJson (s : EngineSegment) : Json :=
  Json.obj [("start", Json.num (s.start?.getD 0)),
            ("end", Json.num (s.end?.getD 0)),
            ("text", Json.str (pyStrip (s.text?.getD "")))]

/-- The failure dict `{"success": False, "error": msg}`. -/
def failureDoc (msg : String) : Json :=
  Json.obj [("success", Json.bool false), ("error", Json.str msg)]

/-- The function `transcribe_audio(audio_path, model="tiny", language=None)`: existence
check, model load, engine call, result reshaping, with the whole body inside
`try`/`except Exception` so every engine error becomes a failure dict. -/
def transcribe_audio (fs : String → Bool) (eng : Engine) (audio_path : String)
    (model : String := "tiny") (language : Option String := none) : Json :=
  if fs audio_path = false then
    failureDoc ("Audio file not found: " ++ audio_path)
  else
    match eng.load model with
    | .error e => failureDoc ("Transcription failed: " ++ e)
    | .ok _ =>
      match eng.transcribe model audio_path (buildOptions language) with
      | .error e => failureDoc ("Transcription failed: " ++ e)
      | .ok result =>
        Json.obj [("success", Json.bool true),
                  ("text", Json.str (pyStrip result.text)),
                  ("language", Json.str (result.language?.getD "unknown")),
                  ("segments", Json.arr ((match result.segments? with
                      | some segs => segs
                      | none => []).map segmentToJson)),
                  ("model_used", Json.str model)]

/-- The usage-error dict printed when `len(sys.argv) < 2`. -/
def usageError : Json :=
  Json.obj [("success", Json.bool false),
            ("error", Json.str "Usage: python whisper_transcribe.py <audio_file> [model] [language]")]

/-- What one process invocation observably produces: the full standard
output and the exit code. -/
structure MainOutput where
  stdout : String
  exitCode : Nat

/-- The entry point `main()` (named `mainEntry`, since `main` is reserved in
Lean): `argv` is the whole `sys.argv` (program name at index 0).
The usage error is printed with plain `json.dumps` (no `indent`), the
transcription result with `json.dumps(result, indent=2, ensure_ascii=False)`;
`print` appends a newline; exit code is `0 if result["success"] else 1`. -/
def mainEntry (fs : String → Bool) (eng : Engine) (argv : List String) : MainOutput :=
  if argv.length < 2 then
    { stdout := dumps usageError ++ "\n", exitCode := 1 }
  else
    let result := transcribe_audio fs eng (argv.getD 1 "")
      (if 2 < argv.length then argv.getD 2 "" else "tiny")
      (if 3 < argv.length then some (argv.getD 3 "") else none)
    { stdout := dumpsIndent 0 result ++ "\n"
      exitCode := match result.lookup "success" with
                  | some (.bool true) => 0
                  | _ => 1 }

/-- The single JSON document an invocation prints (usage error, or the
result of `transcribe_audio` on the parsed arguments). -/
def mainDoc (fs : String → Bool) (eng : Engine) (argv : List String) : Json :=
  if argv.length < 2 then usageError
  else transcribe_audio fs eng (argv.getD 1 "")
    (if 2 < argv.length then argv.getD 2 "" else "tiny")
    (if 3 < argv.length then some (argv.getD 3 "") else none)

/-- The `segments` array of a result document (empty for failure results). -/
def resultSegments (j : Json) : List Json :=
  match j.lookup "segments" with
  | some (.arr xs) => xs
  | _ => []

/-- The `start` timestamp of a segment dict (0 when absent). -/
def segStart (s : Json) : Rat :=
  match s.lookup "start" with
  | some (.num q) => q
  | _ => 0

/-- The `end` timestamp of a segment dict (0 when absent). -/
def segEnd (s : Json) : Rat :=
  match s.lookup "end" with
  | some (.num q) => q
  | _ => 0

/-- One output segment is well-formed: `0 ≤ start`, `0 ≤ end`,
`start ≤ end`. -/
def segWF (s : Json) : Bool :=
  decide (0 ≤ segStart s) && decide (0 ≤ segEnd s) && decide (segStart s ≤ segEnd s)

/-- Every output segment in the list is well-formed. -/
def segsWellFormed : List Json → Bool
  | [] => true
  | s :: rest => segWF s && segsWellFormed rest

/-- Output segments are ordered non-decreasingly by `start`. -/
def startsNondecreasing : List Json → Bool
  | [] => true
  | [_] => true
  | a :: b :: rest => decide (segStart a ≤ segStart b) && startsNondecreasing (b :: rest)

/-- One engine segment is well-formed after the script's defaulting of
missing timestamps to 0. -/
def engineSegWF (s : EngineSegment) : Bool :=
  decide (0 ≤ s.start?.getD 0) && decide (0 ≤ s.end?.getD 0) &&
    decide (s.start?.getD 0 ≤ s.end?.getD 0)

/-- Engine segments are ordered non-decreasingly by (defaulted) start. -/
def engineStartsNondecreasing : List EngineSegment → Bool
  | [] => true
  | [_] => true
  | a :: b :: rest =>
      decide (a.start?.getD 0 ≤ b.start?.getD 0) && engineStartsNondecreasing (b :: rest)

/-- A filesystem on which no path exists. -/
def noFileFs : String → Bool := fun _ => false

/-- A filesystem on which every path exists. -/
def allFilesFs : String → Bool := fun _ => true

/-- An engine whose inference always raises. -/
def stubEngine : Engine :=
  { load := fun _ => Except.ok ()
    transcribe := fun _ _ _ => Except.error "stub inference error" }

/-- An engine whose model load always raises. -/
def loadFailEngine : Engine :=
  { load := fun _ => Except.error "model load error"
    transcribe := fun _ _ _ => Except.error "unreachable" }

/-- An engine emitting one segment with `start > end` — the script copies
timestamps through without checking them. -/
def badSegEngine : Engine :=
  { load := fun _ => Except.ok ()
    transcribe := fun _ _ _ => Except.ok
      { text := "hello"
        language? := some "en"
        segments? := some [{ start? := some 5, end? := some 1, text? := some " hello " }] } }

/-- The result `goodSegEngine` returns. -/
def goodEngineResult : EngineResult :=
  { text := " hello world "
    language? := some "en"
    segments? := some [{ start? := some 0, end? := some 1, text? := some " hello " },
                       { start? := some 1, end? := some 2, text? := some " world " }] }

/-- An engine emitting two well-formed, ordered segments. -/
def goodSegEngine : Engine :=
  { load := fun _ => Except.ok ()
    transcribe := fun _ _ _ => Except.ok goodEngineResult }

/-- Every result of `transcribe_audio` carries a boolean `success` field:
the function is total and always returns one of the two result shapes. -/
theorem transcribe_success_lookup (fs : String → Bool) (eng : Engine) (path model : String)
    (lang : Option String) :
    (transcribe_audio fs eng path model lang).lookup "success" = some (Json.bool true) ∨
    (transcribe_audio fs eng path model lang).lookup "success" = some (Json.bool false) := by
  unfold transcribe_audio
  split
  · right; rfl
  · split
    · right; rfl
    · split
      · right; rfl
      · left; rfl

/-- C3: with zero positional arguments (`len(sys.argv) < 2`) the program
prints the usage-error JSON object (whose `success` field is `false`) and
exits with status 1; the output is independent of the filesystem and the
engine, so `transcribe_audio` is never consulted. -/
theorem zero_args_usage_error_exit_one (fs : String → Bool) (eng : Engine)
    (argv : List String) (h : argv.length < 2) :
    (mainEntry fs eng argv).stdout = dumps usageError ++ "\n" ∧
    usageError.lookup "success" = some (Json.bool false) ∧
    (mainEntry fs eng argv).exitCode = 1 ∧
    ∀ (fs' : String → Bool) (eng' : Engine), mainEntry fs' eng' argv = mainEntry fs eng argv := by
  have e : ∀ (fs0 : String → Bool) (eng0 : Engine),
      mainEntry fs0 eng0 argv = { stdout := dumps usageError ++ "\n", exitCode := 1 } := by
    intro fs0 eng0
    unfold mainEntry
    rw [if_pos h]
  exact ⟨by rw [e], rfl, by rw [e], by intro fs' eng'; rw [e, e]⟩

/-- Witness for C3 at the concrete invocation with only the program name. -/
theorem zero_args_usage_error_exit_one_witness :
    (mainEntry noFileFs stubEngine ["whisper_transcribe.py"]).stdout = dumps usageError ++ "\n" ∧
    usageError.lookup "success" = some (Json.bool false) ∧
    (mainEntry noFileFs stubEngine ["whisper_transcribe.py"]).exitCode = 1 ∧
    ∀ (fs' : String → Bool) (eng' : Engine),
      mainEntry fs' eng' ["whisper_transcribe.py"] = mainEntry noFileFs stubEngine ["whisper_transcribe.py"] :=
  zero_args_usage_error_exit_one noFileFs stubEngine ["whisper_transcribe.py"] (by decide)

/-- C2: when the audio path (argument 1) does not exist, the printed
document is exactly the object with `success: false` and
`error: "Audio file not found: <path>"`, the exit code is 1, and the whole
output is independent of the engine (the engine is never invoked). -/
theorem missing_file_error_and_exit_one (fs : String → Bool) (eng : Engine)
    (argv : List String) (h2 : 2 ≤ argv.length) (hmiss : fs (argv.getD 1 "") = false) :
    mainDoc fs eng argv =
      Json.obj [("success", Json.bool false),
                ("error", Json.str ("Audio file not found: " ++ argv.getD 1 ""))] ∧
    (mainEntry fs eng argv).stdout = dumpsIndent 0 (mainDoc fs eng argv) ++ "\n" ∧
    (mainEntry fs eng argv).exitCode = 1 ∧
    ∀ eng' : Engine, mainEntry fs eng' argv = mainEntry fs eng argv := by
  have hlt : ¬ argv.length < 2 := not_lt.mpr h2
  have hdoc : ∀ eng0 : Engine,
      transcribe_audio fs eng0 (argv.getD 1 "")
        (if 2 < argv.length then argv.getD 2 "" else "tiny")
        (if 3 < argv.length then some (argv.getD 3 "") else none)
        = failureDoc ("Audio file not found: " ++ argv.getD 1 "") := by
    intro eng0
    unfold transcribe_audio
    rw [if_pos hmiss]
  have emain : ∀ eng0 : Engine, mainEntry fs eng0 argv =
      { stdout := dumpsIndent 0 (failureDoc ("Audio file not found: " ++ argv.getD 1 "")) ++ "\n"
        exitCode := 1 } := by
    intro eng0
    simp only [mainEntry, if_neg hlt, hdoc eng0]
    rfl
  have edoc : mainDoc fs eng argv = failureDoc ("Audio file not found: " ++ argv.getD 1 "") := by
    simp only [mainDoc, if_neg hlt, hdoc eng]
  refine ⟨edoc, ?_, by rw [emain], by intro eng'; rw [emain, emain]⟩
  rw [emain, edoc]

/-- Witness for C2 at a concrete two-argument invocation on an empty
filesystem. -/
theorem missing_file_error_and_exit_one_witness :
    mainDoc noFileFs stubEngine ["whisper_transcribe.py", "a.wav"] =
      Json.obj [("success", Json.bool false),
                ("error", Json.str ("Audio file not found: " ++ "a.wav"))] ∧
    (mainEntry noFileFs stubEngine ["whisper_transcribe.py", "a.wav"]).stdout =
      dumpsIndent 0 (mainDoc noFileFs stubEngine ["whisper_transcribe.py", "a.wav"]) ++ "\n" ∧
    (mainEntry noFileFs stubEngine ["whisper_transcribe.py", "a.wav"]).exitCode = 1 ∧
    ∀ eng' : Engine,
      mainEntry noFileFs eng' ["whisper_transcribe.py", "a.wav"] =
        mainEntry noFileFs stubEngine ["whisper_transcribe.py", "a.wav"] :=
  missing_file_error_and_exit_one noFileFs stubEngine ["whisper_transcribe.py", "a.wav"]
    (by decide) rfl

/-- C4: the exit code is 0 exactly when the printed document's `success`
field is `true`, and no exit code other than 0 or 1 ever occurs. -/
theorem exit_code_zero_iff_success (fs : String → Bool) (eng : Engine) (argv : List String) :
    ((mainEntry fs eng argv).exitCode = 0 ↔
      (mainDoc fs eng argv).lookup "success" = some (Json.bool true)) ∧
    ((mainEntry fs eng argv).exitCode = 0 ∨ (mainEntry fs eng argv).exitCode = 1) := by
  by_cases h : argv.length < 2
  · have e1 : mainEntry fs eng argv = { stdout := dumps usageError ++ "\n", exitCode := 1 } := by
      unfold mainEntry
      rw [if_pos h]
    have e2 : mainDoc fs eng argv = usageError := by
      unfold mainDoc
      rw [if_pos h]
    rw [e1, e2]
    refine ⟨⟨fun h0 => absurd h0 (by decide), fun hs => ?_⟩, Or.inr rfl⟩
    have hne : some (Json.bool false) = some (Json.bool true) := hs
    cases hne
  · have e1 : mainEntry fs eng argv =
        { stdout := dumpsIndent 0 (mainDoc fs eng argv) ++ "\n"
          exitCode := match (mainDoc fs eng argv).lookup "success" with
                      | some (Json.bool true) => 0
                      | _ => 1 } := by
      unfold mainEntry mainDoc
      rw [if_neg h, if_neg h]
    rcases transcribe_success_lookup fs eng (argv.getD 1 "")
        (if 2 < argv.length then argv.getD 2 "" else "tiny")
        (if 3 < argv.length then some (argv.getD 3 "") else none) with hT | hF
    · have hT' : (mainDoc fs eng argv).lookup "success" = some (Json.bool true) := by
        unfold mainDoc
        rw [if_neg h]
        exact hT
      rw [e1, hT']
      exact ⟨⟨fun _ => rfl, fun _ => rfl⟩, Or.inl rfl⟩
    · have hF' : (mainDoc fs eng argv).lookup "success" = some (Json.bool false) := by
        unfold mainDoc
        rw [if_neg h]
        exact hF
      rw [e1, hF']
      refine ⟨⟨fun h0 => (Nat.one_ne_zero h0).elim, fun hs => ?_⟩, Or.inr rfl⟩
      simp at hs

/-- Witness for C4 at a concrete failing invocation. -/
theorem exit_code_zero_iff_success_witness :
    ((mainEntry noFileFs stubEngine ["whisper_transcribe.py", "a.wav"]).exitCode = 0 ↔
      (mainDoc noFileFs stubEngine ["whisper_transcribe.py", "a.wav"]).lookup "success" =
        some (Json.bool true)) ∧
    ((mainEntry noFileFs stubEngine ["whisper_transcribe.py", "a.wav"]).exitCode = 0 ∨
      (mainEntry noFileFs stubEngine ["whisper_transcribe.py", "a.wav"]).exitCode = 1) :=
  exit_code_zero_iff_success noFileFs stubEngine ["whisper_transcribe.py", "a.wav"]

/-- C1 counterexample: on the usage-error path (no positional argument) the
printed document is the plain `json.dumps` rendering of the usage object —
not its two-space-indented rendering, which differs.  So not every printed
document uses two-space indentation. -/
theorem usage_output_not_two_space_indented :
    (mainEntry noFileFs stubEngine ["whisper_transcribe.py"]).stdout = dumps usageError ++ "\n" ∧
    (mainEntry noFileFs stubEngine ["whisper_transcribe.py"]).stdout ≠
      dumpsIndent 0 usageError ++ "\n" :=
  ⟨rfl, by decide⟩

/-- C1 (amended): every invocation prints exactly one JSON document (the
whole standard output is one serialized document plus the trailing newline);
with at least one positional argument it is rendered with two-space
indentation, while the usage-error document is rendered compactly with no
indentation. -/
theorem single_json_document_output (fs : String → Bool) (eng : Engine) (argv : List String) :
    (∃ j : Json, (mainEntry fs eng argv).stdout = dumps j ++ "\n" ∨
                 (mainEntry fs eng argv).stdout = dumpsIndent 0 j ++ "\n") ∧
    (2 ≤ argv.length →
      (mainEntry fs eng argv).stdout = dumpsIndent 0 (mainDoc fs eng argv) ++ "\n") ∧
    (argv.length < 2 → (mainEntry fs eng argv).stdout = dumps usageError ++ "\n") := by
  by_cases h : argv.length < 2
  · have e1 : mainEntry fs eng argv = { stdout := dumps usageError ++ "\n", exitCode := 1 } := by
      unfold mainEntry
      rw [if_pos h]
    rw [e1]
    exact ⟨⟨usageError, Or.inl rfl⟩, fun h2 => absurd h (not_lt.mpr h2), fun _ => rfl⟩
  · have e1 : (mainEntry fs eng argv).stdout = dumpsIndent 0 (mainDoc fs eng argv) ++ "\n" := by
      unfold mainEntry mainDoc
      rw [if_neg h, if_neg h]
    exact ⟨⟨mainDoc fs eng argv, Or.inr e1⟩, fun _ => e1, fun hlt => absurd hlt h⟩

/-- Witness for the amended C1 at a concrete two-argument invocation. -/
theorem single_json_document_output_witness :
    (mainEntry noFileFs stubEngine ["whisper_transcribe.py", "a.wav"]).stdout =
      dumpsIndent 0 (mainDoc noFileFs stubEngine ["whisper_transcribe.py", "a.wav"]) ++ "\n" :=
  (single_json_document_output noFileFs stubEngine ["whisper_transcribe.py", "a.wav"]).2.1
    (by decide)

/-- C5: the options dict passed to the engine's `transcribe` call
(`buildOptions language`, the exact argument `transcribe_audio` hands to
`eng.transcribe`) binds `"language"` to a supplied non-empty language code,
is empty when the language is omitted, and never holds more than the one
key; and the result of `transcribe_audio` depends on the engine only
through `load` and through `transcribe` applied at exactly that options
dict. -/
theorem language_option_passthrough :
    buildOptions none = [] ∧
    (∀ l : String, l ≠ "" → buildOptions (some l) = [("language", l)]) ∧
    (∀ lang : Option String, (buildOptions lang).length ≤ 1) ∧
    (∀ (fs : String → Bool) (eng eng' : Engine) (path model : String) (lang : Option String),
      eng.load = eng'.load →
      eng.transcribe model path (buildOptions lang) = eng'.transcribe model path (buildOptions lang) →
      transcribe_audio fs eng path model lang = transcribe_audio fs eng' path model lang) := by
  refine ⟨rfl, ?_, ?_, ?_⟩
  · intro l hl
    simp only [buildOptions]
    rw [if_neg hl]
  · intro lang
    cases lang with
    | none => decide
    | some l =>
      simp only [buildOptions]
      by_cases hl : l = ""
      · rw [if_pos hl]
        decide
      · rw [if_neg hl]
        exact Nat.le_refl 1
  · intro fs eng eng' path model lang hload htr
    unfold transcribe_audio
    rw [hload, htr]

/-- Witness for C5 at the concrete language code "fr". -/
theorem language_option_passthrough_witness :
    buildOptions (some "fr") = [("language", "fr")] :=
  language_option_passthrough.2.1 "fr" (by decide)

/-- C10: an empty-string language argument is falsy in Python's
`if language:`, so the options dict omits the `"language"` key and
`transcribe_audio` behaves identically to the omitted-language
(auto-detect) call. -/
theorem empty_language_auto_detect :
    buildOptions (some "") = buildOptions none ∧
    buildOptions (some "") = [] ∧
    ∀ (fs : String → Bool) (eng : Engine) (path model : String),
      transcribe_audio fs eng path model (some "") = transcribe_audio fs eng path model none :=
  ⟨rfl, rfl, fun _ _ _ _ => rfl⟩

/-- C6: when the model argument is absent from the command line (exactly
one positional argument), the invocation runs `transcribe_audio` with the
default selector `"tiny"` and auto-detect language; and on every successful
result the `model_used` field is exactly the selector that was passed to
the engine's `load`. -/
theorem model_defaults_tiny_and_model_used (fs : String → Bool) (eng : Engine)
    (argv : List String) (h : argv.length = 2) :
    mainDoc fs eng argv = transcribe_audio fs eng (argv.getD 1 "") "tiny" none ∧
    ∀ (path model : String) (lang : Option String),
      (transcribe_audio fs eng path model lang).lookup "success" = some (Json.bool true) →
      (transcribe_audio fs eng path model lang).lookup "model_used" = some (Json.str model) := by
  constructor
  · unfold mainDoc
    rw [h]
    rfl
  · intro path model lang hsucc
    unfold transcribe_audio at hsucc ⊢
    split at hsucc
    · cases hsucc
    · split at hsucc
      · cases hsucc
      · split at hsucc
        · cases hsucc
        · rw [if_neg ‹¬fs path = false›]
          rfl

/-- Witness for C6 at a concrete one-positional-argument invocation with a
successful engine. -/
theorem model_defaults_tiny_and_model_used_witness :
    mainDoc allFilesFs goodSegEngine ["whisper_transcribe.py", "a.wav"] =
      transcribe_audio allFilesFs goodSegEngine "a.wav" "tiny" none ∧
    ∀ (path model : String) (lang : Option String),
      (transcribe_audio allFilesFs goodSegEngine path model lang).lookup "success" =
        some (Json.bool true) →
      (transcribe_audio allFilesFs goodSegEngine path model lang).lookup "model_used" =
        some (Json.str model) :=
  model_defaults_tiny_and_model_used allFilesFs goodSegEngine
    ["whisper_transcribe.py", "a.wav"] (by decide)

/-- The `start` field of a reshaped segment is the engine's (defaulted)
start timestamp, copied through unchanged. -/
theorem segStart_segmentToJson (s : EngineSegment) :
    segStart (segmentToJson s) = s.start?.getD 0 := rfl

/-- The `end` field of a reshaped segment is the engine's (defaulted)
end timestamp, copied through unchanged. -/
theorem segEnd_segmentToJson (s : EngineSegment) :
    segEnd (segmentToJson s) = s.end?.getD 0 := rfl

/-- Well-formedness of a reshaped segment is exactly well-formedness of the
engine segment it came from. -/
theorem segWF_segmentToJson (s : EngineSegment) :
    segWF (segmentToJson s) = engineSegWF s := by
  unfold segWF engineSegWF
  rw [segStart_segmentToJson, segEnd_segmentToJson]

/-- Reshaping a list of well-formed engine segments yields well-formed
output segments. -/
theorem segsWellFormed_map (l : List EngineSegment) (h : ∀ s ∈ l, engineSegWF s = true) :
    segsWellFormed (l.map segmentToJson) = true := by
  induction l with
  | nil => rfl
  | cons a t ih =>
    have ha := h a (List.mem_cons_self a t)
    have ht := ih fun s hs => h s (List.mem_cons_of_mem a hs)
    rw [List.map_cons]
    show (segWF (segmentToJson a) && segsWellFormed (t.map segmentToJson)) = true
    rw [segWF_segmentToJson, ha, ht]
    rfl

/-- Reshaping preserves the non-decreasing-by-start ordering. -/
theorem startsNondecreasing_map (l : List EngineSegment)
    (h : engineStartsNondecreasing l = true) :
    startsNondecreasing (l.map segmentToJson) = true := by
  induction l with
  | nil => rfl
  | cons a t ih =>
    cases t with
    | nil => rfl
    | cons b t2 =>
      have h' : (decide (a.start?.getD 0 ≤ b.start?.getD 0) &&
          engineStartsNondecreasing (b :: t2)) = true := h
      rw [Bool.and_eq_true] at h'
      have htail := ih h'.2
      rw [List.map_cons, List.map_cons]
      show (decide (segStart (segmentToJson a) ≤ segStart (segmentToJson b)) &&
        startsNondecreasing (segmentToJson b :: t2.map segmentToJson)) = true
      rw [segStart_segmentToJson, segStart_segmentToJson, h'.1]
      rw [List.map_cons] at htail
      rw [htail]
      rfl

/-- C7 counterexample: the script copies engine timestamps through without
any check, so an engine emitting a segment with `start > end` produces a
successful output whose segment violates `start ≤ end`.  The claimed
invariant does not hold of every successful output. -/
theorem engine_misordered_segments_passed_through :
    (transcribe_audio allFilesFs badSegEngine "a.wav" "tiny" none).lookup "success" =
      some (Json.bool true) ∧
    segsWellFormed (resultSegments (transcribe_audio allFilesFs badSegEngine "a.wav" "tiny" none)) =
      false :=
  ⟨rfl, rfl⟩

/-- C7 (amended): the script preserves, but does not enforce, segment
well-formedness: whenever the engine's emitted segments all satisfy
`0 ≤ start`, `0 ≤ end`, `start ≤ end` (after the script's defaulting of
missing timestamps to 0) and are ordered non-decreasingly by start, the
successful output's segments satisfy the same properties; failure outputs
have no segments, so they satisfy them vacuously. -/
theorem segments_wellformed_preserved (fs : String → Bool) (eng : Engine)
    (path model : String) (lang : Option String) (r : EngineResult)
    (htr : eng.transcribe model path (buildOptions lang) = Except.ok r)
    (hwf : ∀ s ∈ (match r.segments? with | some l => l | none => []), engineSegWF s = true)
    (hord : engineStartsNondecreasing
      (match r.segments? with | some l => l | none => []) = true) :
    segsWellFormed (resultSegments (transcribe_audio fs eng path model lang)) = true ∧
    startsNondecreasing (resultSegments (transcribe_audio fs eng path model lang)) = true := by
  unfold transcribe_audio
  split
  · exact ⟨rfl, rfl⟩
  · split
    · exact ⟨rfl, rfl⟩
    · split
      · exact ⟨rfl, rfl⟩
      · rename_i result heq
        rw [htr] at heq
        cases heq
        have hsegs : resultSegments
            (Json.obj [("success", Json.bool true),
              ("text", Json.str (pyStrip r.text)),
              ("language", Json.str (r.language?.getD "unknown")),
              ("segments", Json.arr ((match r.segments? with
                  | some segs => segs
                  | none => []).map segmentToJson)),
              ("model_used", Json.str model)]) =
            (match r.segments? with | some segs => segs | none => []).map segmentToJson := rfl
        rw [hsegs]
        exact ⟨segsWellFormed_map _ hwf, startsNondecreasing_map _ hord⟩

/-- Witness for the amended C7 at a concrete engine emitting two ordered,
well-formed segments. -/
theorem segments_wellformed_preserved_witness :
    segsWellFormed (resultSegments
      (transcribe_audio allFilesFs goodSegEngine "a.wav" "tiny" none)) = true ∧
    startsNondecreasing (resultSegments
      (transcribe_audio allFilesFs goodSegEngine "a.wav" "tiny" none)) = true :=
  segments_wellformed_preserved allFilesFs goodSegEngine "a.wav" "tiny" none
    goodEngineResult rfl (by decide) (by decide)

/-- A string starting with a non-empty string is non-empty. -/
theorem append_left_ne_empty (p s : String) (hp : p.length ≠ 0) : p ++ s ≠ "" := by
  intro h
  have hl := congrArg String.length h
  rw [String.length_append] at hl
  simp only [String.length_empty] at hl
  omega

/-- C8: a failure result carries a populated (non-empty) `error` field and
none of the `text`, `language`, `segments`, `model_used` fields; a
successful result's `segments` array is the engine's segment list mapped in
emission order through the reshaping, whose `text` is the engine's segment
text with surrounding whitespace stripped. -/
theorem failure_shape_and_segment_order (fs : String → Bool) (eng : Engine)
    (path model : String) (lang : Option String) :
    ((transcribe_audio fs eng path model lang).lookup "success" = some (Json.bool false) →
      (∃ e : String, e ≠ "" ∧
        (transcribe_audio fs eng path model lang).lookup "error" = some (Json.str e)) ∧
      (transcribe_audio fs eng path model lang).lookup "text" = none ∧
      (transcribe_audio fs eng path model lang).lookup "language" = none ∧
      (transcribe_audio fs eng path model lang).lookup "segments" = none ∧
      (transcribe_audio fs eng path model lang).lookup "model_used" = none) ∧
    (∀ r : EngineResult, fs path = true → eng.load model = Except.ok () →
      eng.transcribe model path (buildOptions lang) = Except.ok r →
      resultSegments (transcribe_audio fs eng path model lang) =
        (match r.segments? with | some l => l | none => []).map segmentToJson) ∧
    (∀ s : EngineSegment,
      (segmentToJson s).lookup "text" = some (Json.str (pyStrip (s.text?.getD "")))) := by
  refine ⟨?_, ?_, fun s => rfl⟩
  · intro hfail
    unfold transcribe_audio at hfail ⊢
    split at hfail
    · rename_i hmiss
      rw [if_pos hmiss]
      exact ⟨⟨"Audio file not found: " ++ path,
        append_left_ne_empty "Audio file not found: " path (by decide), rfl⟩,
        rfl, rfl, rfl, rfl⟩
    · rename_i hmiss
      rw [if_neg hmiss]
      split at hfail
      · rename_i e heq
        exact ⟨⟨"Transcription failed: " ++ e,
          append_left_ne_empty "Transcription failed: " e (by decide), rfl⟩,
          rfl, rfl, rfl, rfl⟩
      · rename_i u heq
        split at hfail
        · rename_i e heq2
          exact ⟨⟨"Transcription failed: " ++ e,
            append_left_ne_empty "Transcription failed: " e (by decide), rfl⟩,
            rfl, rfl, rfl, rfl⟩
        · rename_i r heq2
          cases hfail
  · intro r hfs hload htr
    unfold transcribe_audio
    rw [if_neg (by rw [hfs]; exact fun hcontra => Bool.noConfusion hcontra), hload, htr]
    rfl

/-- Witness for C8: the successful output's segments are the engine's
segments reshaped in order. -/
theorem failure_shape_and_segment_order_witness :
    resultSegments (transcribe_audio allFilesFs goodSegEngine "a.wav" "tiny" none) =
      (match goodEngineResult.segments? with | some l => l | none => []).map segmentToJson :=
  (failure_shape_and_segment_order allFilesFs goodSegEngine "a.wav" "tiny" none).2.1
    goodEngineResult rfl rfl rfl

/-- C9: `transcribe_audio` is total — every call returns a result object
with a boolean `success` field (no exception escapes, the embedding of the
body-wide `except Exception`) — and any error raised by model load or by
inference yields the failure object whose `error` is the stringified
message prefixed with "Transcription failed: ", whatever the message. -/
theorem no_exception_escape_stringified_error (fs : String → Bool) (eng : Engine)
    (path model : String) (lang : Option String) :
    ((transcribe_audio fs eng path model lang).lookup "success" = some (Json.bool true) ∨
     (transcribe_audio fs eng path model lang).lookup "success" = some (Json.bool false)) ∧
    (∀ e : String, fs path = true → eng.load model = Except.error e →
      transcribe_audio fs eng path model lang = failureDoc ("Transcription failed: " ++ e)) ∧
    (∀ e : String, fs path = true → eng.load model = Except.ok () →
      eng.transcribe model path (buildOptions lang) = Except.error e →
      transcribe_audio fs eng path model lang = failureDoc ("Transcription failed: " ++ e)) := by
  refine ⟨transcribe_success_lookup fs eng path model lang, ?_, ?_⟩
  · intro e hfs hload
    unfold transcribe_audio
    rw [if_neg (by rw [hfs]; exact fun hcontra => Bool.noConfusion hcontra), hload]
  · intro e hfs hload htr
    unfold transcribe_audio
    rw [if_neg (by rw [hfs]; exact fun hcontra => Bool.noConfusion hcontra), hload, htr]

/-- Witness for C9 at a concrete engine whose model load raises. -/
theorem no_exception_escape_stringified_error_witness :
    transcribe_audio allFilesFs loadFailEngine "a.wav" "tiny" none =
      failureDoc ("Transcription failed: " ++ "model load error") :=
  (no_exception_escape_stringified_error allFilesFs loadFailEngine "a.wav" "tiny" none).2.1
    "model load error" rfl rfl
